import Mathlib

/-
Verification of the Roboost Primary-Motor-Cortex motion-control core.

The control core converts a body-frame velocity command into per-wheel
velocity targets (mecanum inverse kinematics), regulates each wheel with a
PID controller with anti-windup and deadband compensation, converts the
measured wheel velocities back to a body-velocity estimate (forward
kinematics), and integrates that estimate into a 2-D pose (odometry).

Real-valued machine arithmetic (double) is modelled exactly: by ℚ where the
computation is rational, and by ℝ where it involves trigonometric functions
(the odometry integrator).  The glue code of src/src/core.cpp (cmd_vel
callback, covariance setup, odometry integration, joint-state update) is
embedded directly from that file.  Components whose implementation files are
not part of the available sources (MecanumKinematics4W's .cpp,
PIDController, PIDMotorController, MovingAverageFilter, VelocityController)
are modelled from the specification's description, as marked on each
definition.
-/

namespace Roboost

/-- Body-frame velocity (vx, vy, ω): linear x, linear y, yaw rate. -/
structure BodyVelocity where
  vx : ℚ
  vy : ℚ
  wz : ℚ
deriving DecidableEq

/-- Per-wheel angular velocities, index-aligned front-left, front-right,
back-left, back-right. -/
structure WheelVelocitySet where
  front_left : ℚ
  front_right : ℚ
  back_left : ℚ
  back_right : ℚ
deriving DecidableEq

/-- Geometry of the 4-wheel mecanum drive: wheel radius `r`, half
wheel-base `a`, half track-width `b`.  The constructor of the C++ class
stores wheel radius, wheel base and track width; the spec's kinematic
formulas are phrased in terms of r, a, b with geometry factor k = a + b. -/
structure MecanumKinematics4W where
  wheel_radius : ℚ
  a : ℚ
  b : ℚ
deriving DecidableEq

/-- Modelled from the spec: the implementation file of
`MecanumKinematics4W::calculate_wheel_velocity` is not among the available
sources (only its declaration in kinematics.hpp is).  Inverse kinematics per
the spec: for k = a + b,
front-left = (vx − vy − k·ω)/r, front-right = (vx + vy + k·ω)/r,
back-left = (vx + vy − k·ω)/r, back-right = (vx − vy + k·ω)/r. -/
def MecanumKinematics4W.calculate_wheel_velocity (g : MecanumKinematics4W)
    (v : BodyVelocity) : WheelVelocitySet :=
  let r := g.wheel_radius
  let k := g.a + g.b
  { front_left := (v.vx - v.vy - k * v.wz) / r
    front_right := (v.vx + v.vy + k * v.wz) / r
    back_left := (v.vx + v.vy - k * v.wz) / r
    back_right := (v.vx - v.vy + k * v.wz) / r }

/-- Modelled from the spec: the implementation file of
`MecanumKinematics4W::calculate_robot_velocity` is not among the available
sources.  Forward kinematics per the spec: the least-squares left inverse
(Moore-Penrose pseudo-inverse) of the inverse-kinematics map, equivalently
the equal-weight average of the per-pair estimates:
vx = r(w₀+w₁+w₂+w₃)/4, vy = r(−w₀+w₁+w₂−w₃)/4, ω = r(−w₀+w₁−w₂+w₃)/(4k). -/
def MecanumKinematics4W.calculate_robot_velocity (g : MecanumKinematics4W)
    (w : WheelVelocitySet) : BodyVelocity :=
  let r := g.wheel_radius
  let k := g.a + g.b
  { vx := r * (w.front_left + w.front_right + w.back_left + w.back_right) / 4
    vy := r * (-w.front_left + w.front_right + w.back_left - w.back_right) / 4
    wz := r * (-w.front_left + w.front_right - w.back_left + w.back_right) / (4 * k) }

/-- The geometry of the end-to-end scenario in the spec:
r = 0.05, a = 0.1, b = 0.1. -/
def scenario_geometry : MecanumKinematics4W :=
  { wheel_radius := 0.05, a := 0.1, b := 0.1 }

/-- Gain and limit constants of src/src/core.cpp (lines 56-64, 100). -/
def base_kp : ℚ := 0.105

/-- Base integral gain (core.cpp line 58). -/
def base_ki : ℚ := 0.125

/-- ki modifier for the linear speed regime (core.cpp line 59). -/
def modifier_ki_linear : ℚ := 2.0

/-- ki modifier for the rotational speed regime (core.cpp line 60). -/
def modifier_ki_rotational : ℚ := 1.1

/-- Base derivative gain (core.cpp line 61). -/
def base_kd : ℚ := 0.005

/-- Upper bound on an acceptable sampling interval (core.cpp line 63). -/
def max_expected_sampling_time : ℚ := 0.2

/-- Anti-windup clamp bound on the integral accumulator (core.cpp line 64). -/
def max_integral : ℚ := 5.2

/-- Minimum actuation magnitude for the deadband compensation
(core.cpp line 100). -/
def MIN_OUTPUT : ℚ := 0.35

/-- PID regulator state: gains, limits, integral accumulator and previous
error.  The gains and limits are those passed to the PIDController
constructor in core.cpp; `ki` is mutable at runtime via set_ki. -/
structure PIDController where
  kp : ℚ
  ki : ℚ
  kd : ℚ
  max_expected_sampling_time : ℚ
  max_integral : ℚ
  integral : ℚ
  previous_error : ℚ
deriving DecidableEq

/-- Runtime retuning of the integral gain. -/
def PIDController.set_ki (c : PIDController) (k : ℚ) : PIDController :=
  { c with ki := k }

/-- Modelled from the spec: the PIDController implementation
(motor-control/pid_motor_controller.hpp) is not among the available sources.
compute(setpoint, measured, dt): error = setpoint − measured; if dt is
non-positive or exceeds max_expected_sampling_time, the derivative/integral
update is skipped for the cycle and the proportional-only output kp·error is
returned; otherwise integral += ki·error·dt and is then clamped to
[−max_integral, +max_integral], derivative = kd·(error − previous_error)/dt,
and the output is proportional + integral + derivative. -/
def PIDController.compute (c : PIDController) (setpoint measured dt : ℚ) :
    PIDController × ℚ :=
  let error := setpoint - measured
  if dt ≤ 0 ∨ c.max_expected_sampling_time < dt then
    (c, c.kp * error)
  else
    let integral :=
      max (-c.max_integral) (min c.max_integral (c.integral + c.ki * error * dt))
    let derivative := c.kd * (error - c.previous_error) / dt
    ({ c with integral := integral, previous_error := error },
      c.kp * error + integral + derivative)

/-- The PID controller as constructed in core.cpp (lines 66-73): gains
(base_kp, base_ki, base_kd), limits (max_expected_sampling_time,
max_integral), zero-initialised accumulator state. -/
def initial_controller : PIDController :=
  { kp := base_kp, ki := base_ki, kd := base_kd,
    max_expected_sampling_time := max_expected_sampling_time,
    max_integral := max_integral, integral := 0, previous_error := 0 }

/-- Fold a PID controller over a list of (setpoint, measured, dt) samples,
keeping only the evolving state. -/
def run_pid (c : PIDController) (inputs : List (ℚ × ℚ × ℚ)) : PIDController :=
  inputs.foldl (fun s i => (s.compute i.1 i.2.1 i.2.2).1) c

/-- One motor channel: a PID regulator plus the configured minimum output
magnitude.  In core.cpp both the encoder input filter and the motor output
filter of every channel are NoFilter (identity), so they add no state. -/
structure PIDMotorController where
  controller : PIDController
  min_output : ℚ
deriving DecidableEq

/-- Modelled from the spec: the PIDMotorController implementation is not
among the available sources.  update: read the measured velocity → apply the
(identity) input filter → PID compute(target, filtered_measurement, dt) →
apply the (identity) output filter → deadband compensation: a non-zero
filtered output whose magnitude is below min_output is bumped up to
min_output preserving its sign; if the output is exactly zero or the target
is zero, no floor is applied.  Returns the new channel state and the value
sent to the actuator. -/
def PIDMotorController.update (mc : PIDMotorController)
    (target measured dt : ℚ) : PIDMotorController × ℚ :=
  let filtered_measurement := measured
  let step := mc.controller.compute target filtered_measurement dt
  let filtered_output := step.2
  let output :=
    if filtered_output ≠ 0 ∧ target ≠ 0 ∧ |filtered_output| < mc.min_output then
      (if 0 < filtered_output then mc.min_output else -mc.min_output)
    else filtered_output
  ({ mc with controller := step.1 }, output)

/-- Modelled from the spec: the MovingAverageFilter implementation is not
among the available sources.  It maintains the last `window` samples
(newest first in `buf`); the output is their arithmetic mean, computed over
the partial window while fewer than `window` samples have arrived. -/
structure MovingAverageFilter where
  window : ℕ
  buf : List ℚ
deriving DecidableEq

/-- Feed one sample: push it, drop samples beyond the window, return the new
filter state and the mean of the retained samples. -/
def MovingAverageFilter.update (f : MovingAverageFilter) (sample : ℚ) :
    MovingAverageFilter × ℚ :=
  let buf := (sample :: f.buf).take f.window
  (⟨f.window, buf⟩, buf.sum / (buf.length : ℚ))

/-- Mean of the samples currently held by the filter. -/
def MovingAverageFilter.value (f : MovingAverageFilter) : ℚ :=
  f.buf.sum / (f.buf.length : ℚ)

/-- Incoming velocity command (geometry_msgs Twist): linear.x, linear.y,
angular.z. -/
structure Twist where
  linear_x : ℚ
  linear_y : ℚ
  angular_z : ℚ
deriving DecidableEq

/-- The state read and written by cmd_vel_subscription_callback in core.cpp:
the three command filters (windows 2, 2, 4; core.cpp lines 122-124), the
four PID controllers, and the robot controller's latest command. -/
structure CmdVelCtx where
  cmd_vel_filter_x : MovingAverageFilter
  cmd_vel_filter_y : MovingAverageFilter
  cmd_vel_filter_rot : MovingAverageFilter
  controller_M0 : PIDController
  controller_M1 : PIDController
  controller_M2 : PIDController
  controller_M3 : PIDController
  latest_command : BodyVelocity
deriving DecidableEq

/-- The cmd_vel callback of core.cpp (lines 177-209): smooth each axis with
its moving-average filter; from the smoothed values, pick the ki regime
(linear modifier if |x| or |y| exceeds 0.5, else rotational modifier if |z|
exceeds 1.0, else base ki), apply set_ki to all four controllers, and store
the smoothed command as the robot controller's latest command. -/
def cmd_vel_subscription_callback (s : CmdVelCtx) (msg : Twist) : CmdVelCtx :=
  let ux := s.cmd_vel_filter_x.update msg.linear_x
  let uy := s.cmd_vel_filter_y.update msg.linear_y
  let uz := s.cmd_vel_filter_rot.update msg.angular_z
  let ki :=
    if 0.5 < |ux.2| ∨ 0.5 < |uy.2| then base_ki * modifier_ki_linear
    else if 1.0 < |uz.2| then base_ki * modifier_ki_rotational
    else base_ki
  { cmd_vel_filter_x := ux.1, cmd_vel_filter_y := uy.1, cmd_vel_filter_rot := uz.1,
    controller_M0 := s.controller_M0.set_ki ki,
    controller_M1 := s.controller_M1.set_ki ki,
    controller_M2 := s.controller_M2.set_ki ki,
    controller_M3 := s.controller_M3.set_ki ki,
    latest_command := ⟨ux.2, uy.2, uz.2⟩ }

/-- The callback state at startup: empty filters with windows 2, 2, 4, the
four freshly constructed controllers, zero latest command. -/
def initial_cmd_vel_ctx : CmdVelCtx :=
  { cmd_vel_filter_x := ⟨2, []⟩, cmd_vel_filter_y := ⟨2, []⟩,
    cmd_vel_filter_rot := ⟨4, []⟩,
    controller_M0 := initial_controller, controller_M1 := initial_controller,
    controller_M2 := initial_controller, controller_M3 := initial_controller,
    latest_command := ⟨0, 0, 0⟩ }

/-- Process a stream of received cmd_vel messages in order. -/
def cmd_vel_process (s : CmdVelCtx) (msgs : List Twist) : CmdVelCtx :=
  msgs.foldl cmd_vel_subscription_callback s

/-- Named from the claim's description, for comparison with the code: the
arithmetic mean of the last `w` elements of a sample stream (all of them
while fewer than `w` have arrived). -/
def trailing_mean (w : ℕ) (samples : List ℚ) : ℚ :=
  (samples.reverse.take w).sum / ((samples.reverse.take w).length : ℚ)

/-- Named from the claim's words, for comparison with the code: the
covariance matrix claim C8 describes, with 0.8 only on the x (0), y (7) and
yaw-rotation (35) diagonal entries and 0 everywhere else. -/
def claimed_covariance : Fin 36 → ℚ := fun i =>
  if i.val = 0 ∨ i.val = 7 ∨ i.val = 35 then 0.8 else 0

/-- Covariance array built in core.cpp setup() (lines 298-317).  The loop
zeroes every entry whose index is not a multiple of 7 (the off-diagonal
entries) and leaves the diagonal untouched; the six diagonal entries are
then assigned: 0.8 (x), 0.8 (y), 0.8 (z), 0 (rotation about x), 0 (rotation
about y), 0.8 (rotation about z).  The array starts from malloc'd memory,
modelled by an arbitrary `init`; later writes win, and the six diagonal
writes cover every index the loop skips, so no initial entry survives. -/
def setup_covariance (init : Fin 36 → ℚ) : Fin 36 → ℚ := fun i =>
  if i.val = 0 then 0.8
  else if i.val = 7 then 0.8
  else if i.val = 14 then 0.8
  else if i.val = 21 then 0
  else if i.val = 28 then 0
  else if i.val = 35 then 0.8
  else if i.val % 7 ≠ 0 then 0
  else init i

/-- Pose covariance block of the published odometry message: memcpy of the
setup array (core.cpp line 315). -/
def odom_pose_covariance (init : Fin 36 → ℚ) : Fin 36 → ℚ :=
  setup_covariance init

/-- Twist covariance block of the published odometry message: memcpy of the
same setup array (core.cpp line 316). -/
def odom_twist_covariance (init : Fin 36 → ℚ) : Fin 36 → ℚ :=
  setup_covariance init

/-- 2-D pose (x, y, θ) accumulated by the odometry integrator
(the global `pose` of core.cpp). -/
structure Pose2D where
  x : ℝ
  y : ℝ
  θ : ℝ

/-- Body-velocity estimate over ℝ, as consumed by the odometry step. -/
structure BodyVelocityR where
  vx : ℝ
  vy : ℝ
  wz : ℝ

/-- Two-argument arctangent, defined through the complex argument:
atan2 y x is the argument of x + y·i, valued in (−π, π]. -/
noncomputable def atan2 (y x : ℝ) : ℝ :=
  Complex.arg (x + y * Complex.I)

/-- One odometry integration step, from core.cpp loop() lines 424-429:
rotate the body-frame velocity into the world frame by the current heading,
integrate with dt, advance the heading by ω·dt and renormalize it with
atan2(sin θ, cos θ). -/
noncomputable def odometry_step (p : Pose2D) (v : BodyVelocityR) (dt : ℝ) : Pose2D :=
  let x := p.x + v.vx * Real.cos p.θ * dt - v.vy * Real.sin p.θ * dt
  let y := p.y + v.vx * Real.sin p.θ * dt + v.vy * Real.cos p.θ * dt
  let θ := p.θ + v.wz * dt
  { x := x, y := y, θ := atan2 (Real.sin θ) (Real.cos θ) }

/-- n uniform odometry steps with a constant velocity estimate. -/
noncomputable def odometry_iterate (v : BodyVelocityR) (dt : ℝ) : ℕ → Pose2D → Pose2D
  | 0, p => p
  | n + 1, p => odometry_step (odometry_iterate v dt n p) v dt

/-- Modelled from the spec: VelocityController::update's implementation is
not among the available sources; per the spec it stores the forward
kinematics of the measured wheel velocities as the robot-velocity
estimate returned by get_robot_velocity. -/
def robot_velocity_estimate (g : MecanumKinematics4W)
    (measured : WheelVelocitySet) : BodyVelocity :=
  g.calculate_robot_velocity measured

/-- Joint-state update of one loop() iteration (core.cpp lines 417 and
464-475): the published wheel velocities are the inverse kinematics of the
estimated robot velocity, and each wheel position accumulates its published
velocity times dt.  Returns (new positions, published velocities). -/
def loop_joint_state_update (g : MecanumKinematics4W)
    (positions measured : WheelVelocitySet) (dt : ℚ) :
    WheelVelocitySet × WheelVelocitySet :=
  let wheel_velocities :=
    g.calculate_wheel_velocity (robot_velocity_estimate g measured)
  (⟨positions.front_left + wheel_velocities.front_left * dt,
    positions.front_right + wheel_velocities.front_right * dt,
    positions.back_left + wheel_velocities.back_left * dt,
    positions.back_right + wheel_velocities.back_right * dt⟩,
    wheel_velocities)

/-- Accumulated wheel positions after a sequence of loop iterations, each
sample being (measured wheel velocities, dt). -/
def loop_positions (g : MecanumKinematics4W) (positions : WheelVelocitySet)
    (samples : List (WheelVelocitySet × ℚ)) : WheelVelocitySet :=
  samples.foldl (fun pos s => (loop_joint_state_update g pos s.1 s.2).1) positions

end Roboost

namespace Roboost

/-- C1: the 4-wheel mecanum inverse kinematics returns
[(vx − vy − k·ω)/r, (vx + vy + k·ω)/r, (vx + vy − k·ω)/r, (vx − vy + k·ω)/r]
in the order front-left, front-right, back-left, back-right with k = a + b;
and with r = 0.05, a = 0.1, b = 0.1 the command (0.5, 0, 0) yields all four
wheel target velocities equal to 10 rad/s. -/
theorem C1_inverse_kinematics :
    (∀ (g : MecanumKinematics4W) (v : BodyVelocity),
      g.calculate_wheel_velocity v =
        { front_left := (v.vx - v.vy - (g.a + g.b) * v.wz) / g.wheel_radius
          front_right := (v.vx + v.vy + (g.a + g.b) * v.wz) / g.wheel_radius
          back_left := (v.vx + v.vy - (g.a + g.b) * v.wz) / g.wheel_radius
          back_right := (v.vx - v.vy + (g.a + g.b) * v.wz) / g.wheel_radius }) ∧
    scenario_geometry.calculate_wheel_velocity ⟨0.5, 0, 0⟩ = ⟨10, 10, 10, 10⟩ := by
  refine ⟨fun g v => rfl, ?_⟩
  norm_num [MecanumKinematics4W.calculate_wheel_velocity, scenario_geometry,
    WheelVelocitySet.mk.injEq]

/-- C2: forward kinematics is a left inverse of inverse kinematics: for any
body velocity v (and nondegenerate geometry), forward (inverse v) = v.  In
the exact rational model the round trip is an identity, which subsumes the
floating-point-tolerance phrasing. -/
theorem C2_forward_inverse_roundtrip (g : MecanumKinematics4W) (v : BodyVelocity)
    (hr : g.wheel_radius ≠ 0) (hk : g.a + g.b ≠ 0) :
    g.calculate_robot_velocity (g.calculate_wheel_velocity v) = v := by
  rcases v with ⟨vx, vy, wz⟩
  simp only [MecanumKinematics4W.calculate_wheel_velocity,
    MecanumKinematics4W.calculate_robot_velocity, BodyVelocity.mk.injEq]
  refine ⟨?_, ?_, ?_⟩ <;> field_simp <;> ring

/-- Concrete witness for C2: the scenario geometry is nondegenerate and the
round trip recovers the body velocity (0.5, −0.3, 2). -/
theorem C2_forward_inverse_roundtrip_witness :
    scenario_geometry.wheel_radius ≠ 0 ∧ scenario_geometry.a + scenario_geometry.b ≠ 0 ∧
    scenario_geometry.calculate_robot_velocity
      (scenario_geometry.calculate_wheel_velocity ⟨0.5, -0.3, 2⟩) = ⟨0.5, -0.3, 2⟩ :=
  ⟨by norm_num [scenario_geometry], by norm_num [scenario_geometry],
    C2_forward_inverse_roundtrip scenario_geometry ⟨0.5, -0.3, 2⟩
      (by norm_num [scenario_geometry]) (by norm_num [scenario_geometry])⟩

/-- C3: with the configured minimum output 0.35, a motor channel's update
never sends an actuation value whose magnitude lies strictly between 0 and
0.35 when the target is nonzero: the emitted output is exactly zero or has
magnitude at least 0.35; a bumped output keeps the sign of the regulator
output; a zero regulator output, or a zero target, is passed through with no
floor. -/
theorem C3_deadband_enforcement (c : PIDController) (target measured dt : ℚ) :
    (target ≠ 0 →
      ((PIDMotorController.mk c MIN_OUTPUT).update target measured dt).2 = 0 ∨
        MIN_OUTPUT ≤ |((PIDMotorController.mk c MIN_OUTPUT).update target measured dt).2|) ∧
    (0 < (c.compute target measured dt).2 →
      0 < ((PIDMotorController.mk c MIN_OUTPUT).update target measured dt).2) ∧
    ((c.compute target measured dt).2 < 0 →
      ((PIDMotorController.mk c MIN_OUTPUT).update target measured dt).2 < 0) ∧
    ((c.compute target measured dt).2 = 0 →
      ((PIDMotorController.mk c MIN_OUTPUT).update target measured dt).2 = 0) ∧
    (target = 0 →
      ((PIDMotorController.mk c MIN_OUTPUT).update target measured dt).2 =
        (c.compute target measured dt).2) := by
  have hmin : (0 : ℚ) < MIN_OUTPUT := by norm_num [MIN_OUTPUT]
  simp only [PIDMotorController.update]
  set u := (c.compute target measured dt).2 with hu
  by_cases h : u ≠ 0 ∧ target ≠ 0 ∧ |u| < MIN_OUTPUT
  · simp only [if_pos h]
    by_cases hpos : 0 < u
    · simp only [if_pos hpos]
      exact ⟨fun _ => Or.inr (by rw [abs_of_pos hmin]),
        fun _ => hmin, fun hneg => absurd hpos (by linarith),
        fun h0 => absurd h0 h.1, fun h0 => absurd h0 h.2.1⟩
    · simp only [if_neg hpos]
      refine ⟨fun _ => Or.inr ?_, fun hp => absurd hp hpos,
        fun _ => by linarith, fun h0 => absurd h0 h.1, fun h0 => absurd h0 h.2.1⟩
      rw [abs_neg, abs_of_pos hmin]
  · simp only [if_neg h]
    push_neg at h
    refine ⟨fun ht => ?_, fun hp => hp, fun hn => hn, fun h0 => h0, fun _ => trivial⟩
    by_cases h0 : u = 0
    · exact Or.inl h0
    · exact Or.inr (h h0 ht)

/-- Concrete witness for C3: for the freshly constructed controller, target
1 rad/s, measured 0, dt = 0.1 s, the emitted output is zero or at least 0.35
in magnitude, and the regulator output being positive forces a positive
emitted output. -/
theorem C3_deadband_enforcement_witness :
    (((PIDMotorController.mk initial_controller MIN_OUTPUT).update 1 0 0.1).2 = 0 ∨
      MIN_OUTPUT ≤ |((PIDMotorController.mk initial_controller MIN_OUTPUT).update 1 0 0.1).2|) ∧
    0 < ((PIDMotorController.mk initial_controller MIN_OUTPUT).update 1 0 0.1).2 :=
  ⟨(C3_deadband_enforcement initial_controller 1 0 0.1).1 (by norm_num),
    (C3_deadband_enforcement initial_controller 1 0 0.1).2.1 (by
      norm_num [PIDController.compute, initial_controller, base_kp, base_ki, base_kd,
        max_expected_sampling_time, max_integral])⟩

/-- Helper: one compute step keeps the integral accumulator within the
clamp bound and leaves the configured limits unchanged. -/
theorem PIDController.compute_integral_le (c : PIDController) (s m dt : ℚ)
    (h : |c.integral| ≤ c.max_integral) :
    |((c.compute s m dt).1).integral| ≤ ((c.compute s m dt).1).max_integral := by
  have hM : 0 ≤ c.max_integral := le_trans (abs_nonneg _) h
  simp only [PIDController.compute]
  by_cases hdt : dt ≤ 0 ∨ c.max_expected_sampling_time < dt
  · simpa only [if_pos hdt] using h
  · simp only [if_neg hdt]
    rw [abs_le]
    constructor
    · exact le_max_left _ _
    · exact max_le (by linarith) (min_le_left _ _)

/-- C4 (amended): for every sequence of compute calls starting from the
controller constructed in core.cpp, the integral accumulator stays in
[−max_integral, +max_integral] after every update; since the gain ki is
folded into the accumulator before clamping (integral += ki·error·dt), the
accumulator itself is the integral term's contribution to the output, so
that contribution is bounded by max_integral (not max_integral · ki): on a
valid cycle the output decomposes as kp·error + new-integral +
kd·(error − previous_error)/dt with the middle term clamped. -/
theorem C4_integral_clamping :
    (∀ inputs : List (ℚ × ℚ × ℚ),
      |(run_pid initial_controller inputs).integral| ≤ max_integral) ∧
    (∀ (c : PIDController) (s m dt : ℚ), 0 < dt →
      dt ≤ c.max_expected_sampling_time →
      (c.compute s m dt).2 =
        c.kp * (s - m) + ((c.compute s m dt).1).integral +
          c.kd * ((s - m) - c.previous_error) / dt) := by
  constructor
  · intro inputs
    have key : ∀ (l : List (ℚ × ℚ × ℚ)) (c : PIDController),
        |c.integral| ≤ c.max_integral →
        |(run_pid c l).integral| ≤ (run_pid c l).max_integral := by
      intro l
      induction l with
      | nil => intro c hc; simpa [run_pid] using hc
      | cons x xs ih =>
        intro c hc
        have hstep := PIDController.compute_integral_le c x.1 x.2.1 x.2.2 hc
        have : run_pid c (x :: xs) = run_pid ((c.compute x.1 x.2.1 x.2.2).1) xs := by
          simp [run_pid]
        rw [this]
        exact ih _ hstep
    have h0 : |initial_controller.integral| ≤ initial_controller.max_integral := by
      norm_num [initial_controller, max_integral]
    have hfix : ∀ (l : List (ℚ × ℚ × ℚ)) (c : PIDController),
        (run_pid c l).max_integral = c.max_integral := by
      intro l
      induction l with
      | nil => intro c; simp [run_pid]
      | cons x xs ih =>
        intro c
        have : run_pid c (x :: xs) = run_pid ((c.compute x.1 x.2.1 x.2.2).1) xs := by
          simp [run_pid]
        rw [this, ih]
        simp only [PIDController.compute]
        by_cases hdt : x.2.2 ≤ 0 ∨ c.max_expected_sampling_time < x.2.2 <;> simp [hdt]
    have := key inputs initial_controller h0
    rwa [hfix, show initial_controller.max_integral = max_integral from rfl] at this
  · intro c s m dt h1 h2
    have hdt : ¬(dt ≤ 0 ∨ c.max_expected_sampling_time < dt) := by
      push_neg
      exact ⟨h1, h2⟩
    simp only [PIDController.compute, if_neg hdt]

/-- Concrete witness for C4: a one-step run keeps the accumulator within
the clamp bound, and a valid 0.1 s cycle's output decomposes into the three
terms with the clamped accumulator as the integral contribution. -/
theorem C4_integral_clamping_witness :
    |(run_pid initial_controller [(10, 0, 0.1)]).integral| ≤ max_integral ∧
    (initial_controller.compute 10 0 0.1).2 =
      initial_controller.kp * (10 - 0) +
        ((initial_controller.compute 10 0 0.1).1).integral +
          initial_controller.kd * ((10 - 0) - initial_controller.previous_error) / 0.1 :=
  ⟨C4_integral_clamping.1 [(10, 0, 0.1)],
    C4_integral_clamping.2 initial_controller 10 0 0.1 (by norm_num)
      (by norm_num [initial_controller, max_expected_sampling_time])⟩

/-- Counterexample to C4 as stated: the claim bounds the integral term's
contribution by max_integral · ki = 5.2 · 0.125 = 0.65, but six compute
cycles with constant error 10 and dt = 0.1 drive the (clamped) accumulator —
which is exactly the integral contribution to the output — to 0.75. -/
theorem C4_counterexample :
    (run_pid initial_controller (List.replicate 6 (10, 0, 0.1))).integral = 3 / 4 ∧
    ¬|(run_pid initial_controller (List.replicate 6 (10, 0, 0.1))).integral| ≤
        max_integral * initial_controller.ki := by
  constructor
  · norm_num [run_pid, PIDController.compute, initial_controller, base_kp, base_ki,
      base_kd, max_expected_sampling_time, max_integral, List.replicate, min_def, max_def]
  · norm_num [run_pid, PIDController.compute, initial_controller, base_kp, base_ki,
      base_kd, max_expected_sampling_time, max_integral, List.replicate, min_def,
      max_def, abs]

/-- C5: whenever dt is zero, negative, or exceeds the configured
max_expected_sampling_time, compute skips the derivative and integral
updates — the whole regulator state, integral accumulator and previous
error included, is returned unchanged — and the output is the
proportional-only value kp·(setpoint − measured). -/
theorem C5_degenerate_dt (c : PIDController) (setpoint measured dt : ℚ)
    (h : dt ≤ 0 ∨ c.max_expected_sampling_time < dt) :
    c.compute setpoint measured dt = (c, c.kp * (setpoint - measured)) := by
  simp only [PIDController.compute, if_pos h]

/-- Concrete witness for C5: dt = 0 on the core.cpp controller leaves the
state untouched and yields the proportional-only output. -/
theorem C5_degenerate_dt_witness :
    ((0 : ℚ) ≤ 0 ∨ initial_controller.max_expected_sampling_time < 0) ∧
    initial_controller.compute 3 1 0 =
      (initial_controller, initial_controller.kp * (3 - 1)) :=
  ⟨Or.inl le_rfl, C5_degenerate_dt initial_controller 3 1 0 (Or.inl le_rfl)⟩

/-- C7 (amended): on every received velocity command, all four PID
controllers get the same integral gain, chosen from the smoothed command
the callback stores as the tracked command (not from the raw message): the
linear modifier if |vx| > 0.5 or |vy| > 0.5 on the smoothed values, else
the rotational modifier if the smoothed |ω| > 1.0, else base ki — the
linear condition taking precedence over the rotational one. -/
theorem C7_ki_regime_selection (s : CmdVelCtx) (msg : Twist) :
    ((cmd_vel_subscription_callback s msg).controller_M1.ki =
        (cmd_vel_subscription_callback s msg).controller_M0.ki ∧
      (cmd_vel_subscription_callback s msg).controller_M2.ki =
        (cmd_vel_subscription_callback s msg).controller_M0.ki ∧
      (cmd_vel_subscription_callback s msg).controller_M3.ki =
        (cmd_vel_subscription_callback s msg).controller_M0.ki) ∧
    (0.5 < |(cmd_vel_subscription_callback s msg).latest_command.vx| ∨
        0.5 < |(cmd_vel_subscription_callback s msg).latest_command.vy| →
      (cmd_vel_subscription_callback s msg).controller_M0.ki =
        base_ki * modifier_ki_linear) ∧
    (¬(0.5 < |(cmd_vel_subscription_callback s msg).latest_command.vx| ∨
        0.5 < |(cmd_vel_subscription_callback s msg).latest_command.vy|) →
      1.0 < |(cmd_vel_subscription_callback s msg).latest_command.wz| →
      (cmd_vel_subscription_callback s msg).controller_M0.ki =
        base_ki * modifier_ki_rotational) ∧
    (¬(0.5 < |(cmd_vel_subscription_callback s msg).latest_command.vx| ∨
        0.5 < |(cmd_vel_subscription_callback s msg).latest_command.vy|) →
      ¬1.0 < |(cmd_vel_subscription_callback s msg).latest_command.wz| →
      (cmd_vel_subscription_callback s msg).controller_M0.ki = base_ki) := by
  simp only [cmd_vel_subscription_callback, PIDController.set_ki]
  refine ⟨⟨trivial, trivial, trivial⟩, fun h => ?_, fun h1 h2 => ?_, fun h1 h2 => ?_⟩
  · rw [if_pos h]
  · rw [if_neg h1, if_pos h2]
  · rw [if_neg h1, if_neg h2]

/-- Concrete witness for C7: from the startup state, a first message
(1, 0, 0) selects the linear modifier, a first message (0, 0, 2) selects
the rotational modifier, and a first message (0, 0, 0.5) keeps base ki. -/
theorem C7_ki_regime_selection_witness :
    (cmd_vel_subscription_callback initial_cmd_vel_ctx ⟨1, 0, 0⟩).controller_M0.ki =
      base_ki * modifier_ki_linear ∧
    (cmd_vel_subscription_callback initial_cmd_vel_ctx ⟨0, 0, 2⟩).controller_M0.ki =
      base_ki * modifier_ki_rotational ∧
    (cmd_vel_subscription_callback initial_cmd_vel_ctx ⟨0, 0, 0.5⟩).controller_M0.ki =
      base_ki :=
  ⟨(C7_ki_regime_selection initial_cmd_vel_ctx ⟨1, 0, 0⟩).2.1
      (by norm_num [cmd_vel_subscription_callback, MovingAverageFilter.update,
        initial_cmd_vel_ctx, abs]),
    (C7_ki_regime_selection initial_cmd_vel_ctx ⟨0, 0, 2⟩).2.2.1
      (by norm_num [cmd_vel_subscription_callback, MovingAverageFilter.update,
        initial_cmd_vel_ctx, abs])
      (by norm_num [cmd_vel_subscription_callback, MovingAverageFilter.update,
        initial_cmd_vel_ctx, abs]),
    (C7_ki_regime_selection initial_cmd_vel_ctx ⟨0, 0, 0.5⟩).2.2.2
      (by norm_num [cmd_vel_subscription_callback, MovingAverageFilter.update,
        initial_cmd_vel_ctx, abs])
      (by norm_num [cmd_vel_subscription_callback, MovingAverageFilter.update,
        initial_cmd_vel_ctx, abs])⟩

/-- Counterexample to C7 as stated: the thresholds are evaluated on the
smoothed command, not the received one.  After a zero command, the received
command (1, 0, 0) has |vx| = 1 > 0.5, so the claim prescribes the linear
modifier; the code smooths vx to 0.5, which does not exceed the threshold,
and keeps base ki. -/
theorem C7_counterexample :
    0.5 < |(1 : ℚ)| ∧
    (cmd_vel_process initial_cmd_vel_ctx
        [⟨0, 0, 0⟩, ⟨1, 0, 0⟩]).controller_M0.ki ≠ base_ki * modifier_ki_linear := by
  constructor
  · norm_num
  · norm_num [cmd_vel_process, cmd_vel_subscription_callback,
      MovingAverageFilter.update, initial_cmd_vel_ctx, PIDController.set_ki,
      initial_controller, base_ki, modifier_ki_linear, modifier_ki_rotational, abs]

/-- C8 (amended): the covariance of the published odometry is a static
configuration constant, independent of the malloc'd initial contents: a
diagonal matrix with 0.8 on the x, y, z and yaw-rotation diagonal entries
and 0 on the roll and pitch diagonal entries and everywhere off the
diagonal, and the pose and twist covariance blocks are identical. -/
theorem C8_covariance (init : Fin 36 → ℚ) (i : Fin 36) :
    odom_pose_covariance init i = odom_twist_covariance init i ∧
    odom_pose_covariance init i =
      (if i.val = 0 ∨ i.val = 7 ∨ i.val = 14 ∨ i.val = 35 then 0.8 else 0) := by
  refine ⟨rfl, ?_⟩
  rcases i with ⟨v, hv⟩
  simp only [odom_pose_covariance, setup_covariance]
  split_ifs <;> first | rfl | omega

/-- Counterexample to C8 as stated: the claim requires 0 on the diagonal
entries of unobserved axes, but the code assigns 0.8 to the linear-z
diagonal entry (index 14), which the robot does not observe. -/
theorem C8_counterexample :
    odom_pose_covariance (fun _ => 0) (14 : Fin 36) = 0.8 ∧
    claimed_covariance (14 : Fin 36) = 0 ∧ (0.8 : ℚ) ≠ 0 := by
  refine ⟨rfl, rfl, by norm_num⟩

/-- Helper: truncating a buffer that was already truncated to the window,
after prepending more samples, is the same as truncating once. -/
theorem take_append_take (l : List ℚ) (x : ℚ) (b : List ℚ) (k : ℕ) :
    (l ++ (x :: b).take k).take k = (l ++ x :: b).take k := by
  rw [List.take_append_eq_append_take, List.take_append_eq_append_take,
    List.take_take]
  have h : min (k - l.length) k = k - l.length := by omega
  rw [h]

/-- Helper: after processing a message stream the x command filter holds the
most recent linear.x samples, newest first, up to its window. -/
theorem cmd_vel_process_filter_x (msgs : List Twist) (s : CmdVelCtx)
    (h : s.cmd_vel_filter_x.buf.length ≤ s.cmd_vel_filter_x.window) :
    (cmd_vel_process s msgs).cmd_vel_filter_x =
      ⟨s.cmd_vel_filter_x.window,
        ((msgs.map Twist.linear_x).reverse ++ s.cmd_vel_filter_x.buf).take
          s.cmd_vel_filter_x.window⟩ := by
  induction msgs generalizing s with
  | nil =>
    simp only [cmd_vel_process, List.foldl_nil, List.map_nil, List.reverse_nil,
      List.nil_append]
    rw [List.take_of_length_le h]
  | cons m rest ih =>
    have step : cmd_vel_process s (m :: rest) =
        cmd_vel_process (cmd_vel_subscription_callback s m) rest := rfl
    rw [step, ih (cmd_vel_subscription_callback s m)
      (by simp [cmd_vel_subscription_callback, MovingAverageFilter.update])]
    simp only [cmd_vel_subscription_callback, MovingAverageFilter.update]
    rw [take_append_take]
    simp [List.append_assoc]

/-- Helper: after processing a message stream the y command filter holds the
most recent linear.y samples, newest first, up to its window. -/
theorem cmd_vel_process_filter_y (msgs : List Twist) (s : CmdVelCtx)
    (h : s.cmd_vel_filter_y.buf.length ≤ s.cmd_vel_filter_y.window) :
    (cmd_vel_process s msgs).cmd_vel_filter_y =
      ⟨s.cmd_vel_filter_y.window,
        ((msgs.map Twist.linear_y).reverse ++ s.cmd_vel_filter_y.buf).take
          s.cmd_vel_filter_y.window⟩ := by
  induction msgs generalizing s with
  | nil =>
    simp only [cmd_vel_process, List.foldl_nil, List.map_nil, List.reverse_nil,
      List.nil_append]
    rw [List.take_of_length_le h]
  | cons m rest ih =>
    have step : cmd_vel_process s (m :: rest) =
        cmd_vel_process (cmd_vel_subscription_callback s m) rest := rfl
    rw [step, ih (cmd_vel_subscription_callback s m)
      (by simp [cmd_vel_subscription_callback, MovingAverageFilter.update])]
    simp only [cmd_vel_subscription_callback, MovingAverageFilter.update]
    rw [take_append_take]
    simp [List.append_assoc]

/-- Helper: after processing a message stream the rotation command filter
holds the most recent angular.z samples, newest first, up to its window. -/
theorem cmd_vel_process_filter_rot (msgs : List Twist) (s : CmdVelCtx)
    (h : s.cmd_vel_filter_rot.buf.length ≤ s.cmd_vel_filter_rot.window) :
    (cmd_vel_process s msgs).cmd_vel_filter_rot =
      ⟨s.cmd_vel_filter_rot.window,
        ((msgs.map Twist.angular_z).reverse ++ s.cmd_vel_filter_rot.buf).take
          s.cmd_vel_filter_rot.window⟩ := by
  induction msgs generalizing s with
  | nil =>
    simp only [cmd_vel_process, List.foldl_nil, List.map_nil, List.reverse_nil,
      List.nil_append]
    rw [List.take_of_length_le h]
  | cons m rest ih =>
    have step : cmd_vel_process s (m :: rest) =
        cmd_vel_process (cmd_vel_subscription_callback s m) rest := rfl
    rw [step, ih (cmd_vel_subscription_callback s m)
      (by simp [cmd_vel_subscription_callback, MovingAverageFilter.update])]
    simp only [cmd_vel_subscription_callback, MovingAverageFilter.update]
    rw [take_append_take]
    simp [List.append_assoc]

/-- Helper: after at least one message, the stored latest command is the
mean held by each axis filter. -/
theorem cmd_vel_process_latest (msgs : List Twist) (m : Twist) (s : CmdVelCtx) :
    (cmd_vel_process s (msgs ++ [m])).latest_command =
      ⟨(cmd_vel_process s (msgs ++ [m])).cmd_vel_filter_x.value,
        (cmd_vel_process s (msgs ++ [m])).cmd_vel_filter_y.value,
        (cmd_vel_process s (msgs ++ [m])).cmd_vel_filter_rot.value⟩ := by
  have step : cmd_vel_process s (msgs ++ [m]) =
      cmd_vel_subscription_callback (cmd_vel_process s msgs) m :=
    List.foldl_append ..
  rw [step]
  rfl

/-- Helper: after at least one message, the integral gain of controller M0
is the regime selection evaluated on the stored (smoothed) command. -/
theorem cmd_vel_process_ki (msgs : List Twist) (m : Twist) (s : CmdVelCtx) :
    (cmd_vel_process s (msgs ++ [m])).controller_M0.ki =
      (if 0.5 < |(cmd_vel_process s (msgs ++ [m])).latest_command.vx| ∨
          0.5 < |(cmd_vel_process s (msgs ++ [m])).latest_command.vy| then
        base_ki * modifier_ki_linear
      else if 1.0 < |(cmd_vel_process s (msgs ++ [m])).latest_command.wz| then
        base_ki * modifier_ki_rotational
      else base_ki) := by
  have step : cmd_vel_process s (msgs ++ [m]) =
      cmd_vel_subscription_callback (cmd_vel_process s msgs) m :=
    List.foldl_append ..
  rw [step]
  rfl

/-- C9: the stored tracked command is not the raw received message but the
per-axis trailing mean of the received messages (window 2 for linear x,
2 for linear y, 4 for angular z), the ki regime thresholds are evaluated on
these smoothed values, and concretely a (1, 0, 0) command received after a
zero command is stored as vx = 0.5 — not its full magnitude 1 — and keeps
base ki instead of the linear modifier its raw value would select. -/
theorem C9_command_smoothing :
    (∀ (msgs : List Twist) (m : Twist),
      (cmd_vel_process initial_cmd_vel_ctx (msgs ++ [m])).latest_command =
        ⟨trailing_mean 2 ((msgs ++ [m]).map Twist.linear_x),
          trailing_mean 2 ((msgs ++ [m]).map Twist.linear_y),
          trailing_mean 4 ((msgs ++ [m]).map Twist.angular_z)⟩ ∧
      (cmd_vel_process initial_cmd_vel_ctx (msgs ++ [m])).controller_M0.ki =
        (if 0.5 < |trailing_mean 2 ((msgs ++ [m]).map Twist.linear_x)| ∨
            0.5 < |trailing_mean 2 ((msgs ++ [m]).map Twist.linear_y)| then
          base_ki * modifier_ki_linear
        else if 1.0 < |trailing_mean 4 ((msgs ++ [m]).map Twist.angular_z)| then
          base_ki * modifier_ki_rotational
        else base_ki)) ∧
    ((cmd_vel_process initial_cmd_vel_ctx [⟨0, 0, 0⟩, ⟨1, 0, 0⟩]).latest_command.vx =
        0.5 ∧
      (1 : ℚ) ≠ 0.5 ∧
      (cmd_vel_process initial_cmd_vel_ctx [⟨0, 0, 0⟩, ⟨1, 0, 0⟩]).controller_M0.ki =
        base_ki ∧
      base_ki ≠ base_ki * modifier_ki_linear) := by
  have main : ∀ (msgs : List Twist) (m : Twist),
      (cmd_vel_process initial_cmd_vel_ctx (msgs ++ [m])).latest_command =
        ⟨trailing_mean 2 ((msgs ++ [m]).map Twist.linear_x),
          trailing_mean 2 ((msgs ++ [m]).map Twist.linear_y),
          trailing_mean 4 ((msgs ++ [m]).map Twist.angular_z)⟩ := by
    intro msgs m
    rw [cmd_vel_process_latest,
      cmd_vel_process_filter_x (msgs ++ [m]) initial_cmd_vel_ctx (by simp [initial_cmd_vel_ctx]),
      cmd_vel_process_filter_y (msgs ++ [m]) initial_cmd_vel_ctx (by simp [initial_cmd_vel_ctx]),
      cmd_vel_process_filter_rot (msgs ++ [m]) initial_cmd_vel_ctx (by simp [initial_cmd_vel_ctx])]
    simp [MovingAverageFilter.value, trailing_mean, initial_cmd_vel_ctx]
  refine ⟨fun msgs m => ⟨main msgs m, ?_⟩, ?_, by norm_num, ?_, ?_⟩
  · rw [cmd_vel_process_ki, main msgs m]
  · rw [show ([⟨0, 0, 0⟩, ⟨1, 0, 0⟩] : List Twist) =
        [⟨0, 0, 0⟩] ++ [⟨1, 0, 0⟩] from rfl, main [⟨0, 0, 0⟩] ⟨1, 0, 0⟩]
    norm_num [trailing_mean]
  · norm_num [cmd_vel_process, cmd_vel_subscription_callback,
      MovingAverageFilter.update, initial_cmd_vel_ctx, PIDController.set_ki,
      initial_controller, base_ki, modifier_ki_linear, modifier_ki_rotational, abs]
  · norm_num [base_ki, modifier_ki_linear]

/-- Helper: atan2(sin θ, cos θ) returns θ itself when θ already lies in
(−π, π]. -/
theorem atan2_sin_cos {θ : ℝ} (h : θ ∈ Set.Ioc (-Real.pi) Real.pi) :
    atan2 (Real.sin θ) (Real.cos θ) = θ := by
  unfold atan2
  rw [show ((Real.cos θ : ℂ) + (Real.sin θ : ℂ) * Complex.I) =
      Complex.cos θ + Complex.sin θ * Complex.I by
    rw [Complex.ofReal_cos, Complex.ofReal_sin]]
  exact Complex.arg_cos_add_sin_mul_I h

/-- Helper: one odometry step with pure forward velocity 1 m/s at heading 0
advances x by dt = 0.1 and leaves y and θ at zero. -/
theorem odometry_step_straight (a : ℝ) :
    odometry_step ⟨a, 0, 0⟩ ⟨1, 0, 0⟩ (1 / 10) = ⟨a + 1 / 10, 0, 0⟩ := by
  simp only [odometry_step, atan2]
  norm_num [Real.cos_zero, Real.sin_zero, Complex.arg_one, Pose2D.mk.injEq]

/-- Helper: n straight steps from the origin accumulate x = n·0.1. -/
theorem odometry_iterate_straight (n : ℕ) :
    odometry_iterate ⟨1, 0, 0⟩ (1 / 10) n ⟨0, 0, 0⟩ = ⟨(n : ℝ) * (1 / 10), 0, 0⟩ := by
  induction n with
  | zero => simp [odometry_iterate]
  | succ n ih =>
    simp only [odometry_iterate, ih, odometry_step_straight]
    rw [Pose2D.mk.injEq]
    push_cast
    refine ⟨by ring, rfl, rfl⟩

/-- Helper: one odometry step with pure yaw velocity π/2 rad/s advances the
heading by π/20 and keeps x = y = 0, provided the new heading stays inside
(−π, π]. -/
theorem odometry_step_rotate (θ : ℝ) (h1 : -Real.pi < θ + Real.pi / 20)
    (h2 : θ + Real.pi / 20 ≤ Real.pi) :
    odometry_step ⟨0, 0, θ⟩ ⟨0, 0, Real.pi / 2⟩ (1 / 10) = ⟨0, 0, θ + Real.pi / 20⟩ := by
  simp only [odometry_step]
  rw [show θ + Real.pi / 2 * (1 / 10) = θ + Real.pi / 20 by ring,
    atan2_sin_cos ⟨h1, h2⟩, Pose2D.mk.injEq]
  norm_num

/-- Helper: n ≤ 10 rotation steps from the origin accumulate θ = n·π/20. -/
theorem odometry_iterate_rotate (n : ℕ) (hn : n ≤ 10) :
    odometry_iterate ⟨0, 0, Real.pi / 2⟩ (1 / 10) n ⟨0, 0, 0⟩ =
      ⟨0, 0, (n : ℝ) * (Real.pi / 20)⟩ := by
  have hpi := Real.pi_pos
  induction n with
  | zero => simp [odometry_iterate]
  | succ n ih =>
    have hn' : n ≤ 10 := by omega
    have hcast : (n : ℝ) ≤ 10 := by exact_mod_cast hn'
    simp only [odometry_iterate, ih hn']
    rw [odometry_step_rotate ((n : ℝ) * (Real.pi / 20)) (by nlinarith) (by nlinarith),
      Pose2D.mk.injEq]
    push_cast
    refine ⟨rfl, rfl, by ring⟩

/-- C6: each odometry step updates x and y by the heading-rotated velocity
times dt and wraps the new heading into (−π, π] via atan2(sin, cos);
10 steps of dt = 0.1 s at velocity (1, 0, 0) from the zero pose give exactly
(1, 0, 0), and 10 such steps at velocity (0, 0, π/2) give heading π/2. -/
theorem C6_odometry_integration :
    (∀ (p : Pose2D) (v : BodyVelocityR) (dt : ℝ),
      (odometry_step p v dt).x =
        p.x + (v.vx * Real.cos p.θ - v.vy * Real.sin p.θ) * dt ∧
      (odometry_step p v dt).y =
        p.y + (v.vx * Real.sin p.θ + v.vy * Real.cos p.θ) * dt ∧
      (odometry_step p v dt).θ =
        atan2 (Real.sin (p.θ + v.wz * dt)) (Real.cos (p.θ + v.wz * dt)) ∧
      (odometry_step p v dt).θ ∈ Set.Ioc (-Real.pi) Real.pi) ∧
    odometry_iterate ⟨1, 0, 0⟩ (1 / 10) 10 ⟨0, 0, 0⟩ = ⟨1, 0, 0⟩ ∧
    (odometry_iterate ⟨0, 0, Real.pi / 2⟩ (1 / 10) 10 ⟨0, 0, 0⟩).θ = Real.pi / 2 := by
  refine ⟨fun p v dt => ⟨?_, ?_, rfl, ?_⟩, ?_, ?_⟩
  · simp only [odometry_step]
    ring
  · simp only [odometry_step]
    ring
  · exact Complex.arg_mem_Ioc _
  · rw [odometry_iterate_straight 10, Pose2D.mk.injEq]
    norm_num
  · rw [odometry_iterate_rotate 10 le_rfl]
    push_cast
    ring

/-- C10: the published per-wheel joint state is derived from the
body-velocity estimate, not the raw measurements: the published wheel
velocities are the inverse kinematics of the forward kinematics of the
measured wheel velocities (an idempotent map, i.e. the projection onto the
kinematically consistent subspace), each accumulated wheel position is the
initial value plus the running sum of projected velocity times dt, and for
the measurement (1, 0, 0, 0) the published velocities differ from the raw
measurement. -/
theorem C10_joint_state_projection :
    (∀ (g : MecanumKinematics4W) (positions measured : WheelVelocitySet) (dt : ℚ),
      (loop_joint_state_update g positions measured dt).2 =
        g.calculate_wheel_velocity (g.calculate_robot_velocity measured)) ∧
    (∀ (g : MecanumKinematics4W) (measured : WheelVelocitySet),
      g.wheel_radius ≠ 0 → g.a + g.b ≠ 0 →
      g.calculate_wheel_velocity (g.calculate_robot_velocity
        (g.calculate_wheel_velocity (g.calculate_robot_velocity measured))) =
        g.calculate_wheel_velocity (g.calculate_robot_velocity measured)) ∧
    (∀ (g : MecanumKinematics4W) (positions : WheelVelocitySet)
        (samples : List (WheelVelocitySet × ℚ)),
      loop_positions g positions samples =
        ⟨positions.front_left + (samples.map (fun s =>
            (g.calculate_wheel_velocity
              (g.calculate_robot_velocity s.1)).front_left * s.2)).sum,
          positions.front_right + (samples.map (fun s =>
            (g.calculate_wheel_velocity
              (g.calculate_robot_velocity s.1)).front_right * s.2)).sum,
          positions.back_left + (samples.map (fun s =>
            (g.calculate_wheel_velocity
              (g.calculate_robot_velocity s.1)).back_left * s.2)).sum,
          positions.back_right + (samples.map (fun s =>
            (g.calculate_wheel_velocity
              (g.calculate_robot_velocity s.1)).back_right * s.2)).sum⟩) ∧
    (loop_joint_state_update scenario_geometry ⟨0, 0, 0, 0⟩ ⟨1, 0, 0, 0⟩ 1).2 ≠
      ⟨1, 0, 0, 0⟩ := by
  refine ⟨fun g positions measured dt => rfl, ?_, ?_, ?_⟩
  · intro g m hr hk
    refine congrArg g.calculate_wheel_velocity ?_
    rcases h : g.calculate_robot_velocity m with ⟨vx, vy, wz⟩
    simp only [MecanumKinematics4W.calculate_wheel_velocity,
      MecanumKinematics4W.calculate_robot_velocity, BodyVelocity.mk.injEq]
    refine ⟨?_, ?_, ?_⟩ <;> field_simp <;> ring
  · intro g positions samples
    induction samples generalizing positions with
    | nil =>
      rcases positions with ⟨a, b, c, d⟩
      simp [loop_positions]
    | cons s rest ih =>
      have step : loop_positions g positions (s :: rest) =
          loop_positions g (loop_joint_state_update g positions s.1 s.2).1 rest := rfl
      rw [step, ih]
      simp only [loop_joint_state_update, robot_velocity_estimate, List.map_cons,
        List.sum_cons, WheelVelocitySet.mk.injEq]
      refine ⟨by ring, by ring, by ring, by ring⟩
  · norm_num [loop_joint_state_update, robot_velocity_estimate,
      MecanumKinematics4W.calculate_wheel_velocity,
      MecanumKinematics4W.calculate_robot_velocity, scenario_geometry,
      WheelVelocitySet.mk.injEq]

/-- Concrete witness for C10: the scenario geometry is nondegenerate and
projecting the (kinematically inconsistent) measurement (1, 0, 0, 0) twice
gives the same wheel velocities as projecting it once. -/
theorem C10_joint_state_projection_witness :
    scenario_geometry.wheel_radius ≠ 0 ∧
    scenario_geometry.a + scenario_geometry.b ≠ 0 ∧
    scenario_geometry.calculate_wheel_velocity (scenario_geometry.calculate_robot_velocity
        (scenario_geometry.calculate_wheel_velocity
          (scenario_geometry.calculate_robot_velocity ⟨1, 0, 0, 0⟩))) =
      scenario_geometry.calculate_wheel_velocity
        (scenario_geometry.calculate_robot_velocity ⟨1, 0, 0, 0⟩) :=
  ⟨by norm_num [scenario_geometry], by norm_num [scenario_geometry],
    C10_joint_state_projection.2.1 scenario_geometry ⟨1, 0, 0, 0⟩
      (by norm_num [scenario_geometry]) (by norm_num [scenario_geometry])⟩

end Roboost
